import Mathlib

/-!
Verification of the condition parser of ansible-rulebook
(src/ansible_rulebook/condition_parser.py).

The Python file declares a pyparsing grammar (terminal recognizers,
compound recognizers, a 12-entry infix_notation precedence table) together
with AST factory functions, and an entry point parse_condition.  This file
shallowly embeds that grammar: every recognizer below is a direct
translation of the corresponding pyparsing expression, following the
semantics of the pyparsing combinators used (ordered choice, per-leaf
whitespace skipping over " \n\t\r", greedy maximal munch for Word and
Regex character classes, delimitedList needing at least one element,
infix_notation tiers folding a flat token run through the attached parse
action).  The factory functions (OperatorExpressionFactory,
SearchTypeFactory, SelectattrTypeFactory, SelectTypeFactory) are
translated line by line from the Python source, including their
out-of-range list accesses, which are modelled as explicit IndexError
outcomes, and the exceptions they raise.  Exceptions thrown from a
parse action abort the parse without backtracking, with one exception
that pyparsing itself makes: an IndexError raised inside a parse action
is converted into a recoverable ParseException ("exception raised in
parse action"), so the enclosing alternation backtracks past it; this
conversion is applied at each point of the embedding where a parse
action runs.

The AST node classes live in ansible_rulebook/condition_types.py, which is
not part of the sources given (only the parser imports it).  Those node
constructors are modelled from the spec, section 3: they are plain
immutable records (Python NamedTuples) with the listed fields.  Since
Python is untyped, a single inductive type Val below carries every value
that can flow through the parse: raw string tokens, pyparsing Group
results, plain Python lists produced by as_list, and the AST nodes
themselves.

Identifier characters are modelled as ASCII letters, digits and
underscore; pyparsing also accepts further unicode identifier characters,
which no claim exercises.
-/

namespace AnsibleRulebook

/-- Modelled from the spec: the AST node constructors of
condition_types.py (Integer, Float, Boolean, String, Identifier,
KeywordValue, SearchType, SelectType, SelectattrType, OperatorExpression,
NegateExpression, Condition), together with the host-language values that
flow through a pyparsing parse: raw string tokens (str), Group results
(group), plain lists produced by as_list (list) and Python None (pynone).
Deep equality of two Val trees coincides with Python structural equality
of the corresponding NamedTuple trees.  A Float node keeps the matched
lexeme instead of an IEEE value: parsing never computes with the float.
The String constructor takes a Val, not a Lean String, because
SearchTypeFactory wraps arbitrary tokens in String(...). -/
inductive Val where
  | str (s : String)
  | group (ts : List Val)
  | list (ts : List Val)
  | pynone
  | Integer (value : Int)
  | Float (lexeme : String)
  | Boolean (value : Bool)
  | String (value : Val)
  | Identifier (value : String)
  | KeywordValue (key value : Val)
  | SearchType (kind pattern : Val) (options : List Val)
  | SelectType (operator value : Val)
  | SelectattrType (key operator value : Val)
  | OperatorExpression (left operator right : Val)
  | NegateExpression (operand : Val)
  | Condition (root : Val)

/-- Exceptions that Python parse actions can raise.  selectattrOp and
selectOp model SelectattrOperatorException and SelectOperatorException
(declared in ansible_rulebook/exception.py, not in the given sources;
modelled from the spec as dedicated error types carrying the offending
token).  indexErr, attrErr, typeErr model the built-in Python
IndexError, AttributeError, TypeError.  All of these propagate out of
pyparsing and abort the parse, except that an IndexError raised inside
a parse action is wrapped by pyparsing into a recoverable
ParseException at the expression where the action runs, letting the
enclosing alternation backtrack. -/
inductive PErr where
  | selectattrOp (tok : Val)
  | selectOp (tok : Val)
  | indexErr
  | attrErr
  | typeErr

/-- Parser input: the characters still to be consumed, together with the
last character already consumed (needed for the regex word-boundary of
the keyword operator tier). -/
structure Cur where
  prev : Option Char
  rest : List Char

/-- Result of running one pyparsing expression: success with tokens and
the rest of the input, a recoverable ParseException (fail), or a Python
exception from a parse action (err), which aborts everything. -/
inductive PRes (α : Type) where
  | ok (a : α) (next : Cur)
  | fail
  | err (e : PErr)

/-- A parser for one pyparsing expression: it consumes input and produces
a token list (pyparsing ParseResults are flat token lists at each level). -/
def P : Type := Cur → PRes (List Val)

/-- Whitespace characters skipped by pyparsing before each leaf
(ParserElement.DEFAULT_WHITE_CHARS = " \n\t\r"). -/
def isWsChar (c : Char) : Bool :=
  c == ' ' || c == '\n' || c == '\t' || c == '\r'

/-- Skip leading whitespace, recording the last skipped character. -/
def skipWsL (p : Option Char) : List Char → Cur
  | [] => ⟨p, []⟩
  | c :: rest =>
      if isWsChar c then skipWsL (some c) rest else ⟨p, c :: rest⟩

/-- Skip leading whitespace on a cursor. -/
def skipWs (c : Cur) : Cur := skipWsL c.prev c.rest

/-- Consume an exact character sequence, updating the last-consumed
character; none when the input does not start with it. -/
def takeStrL : List Char → Option Char → List Char → Option Cur
  | [], p, ys => some ⟨p, ys⟩
  | _ :: _, _, [] => none
  | x :: xs, _, y :: ys => if x = y then takeStrL xs (some y) ys else none

/-- Consume an exact character sequence from a cursor. -/
def takeStr (xs : List Char) (c : Cur) : Option Cur :=
  takeStrL xs c.prev c.rest

/-- Consume the maximal run of characters satisfying f. -/
def takeWhileL (f : Char → Bool) (p : Option Char) :
    List Char → List Char × Cur
  | [] => ([], ⟨p, []⟩)
  | c :: rest =>
      if f c then
        let r := takeWhileL f (some c) rest
        (c :: r.1, r.2)
      else ([], ⟨p, c :: rest⟩)

/-- Consume the maximal satisfying run from a cursor. -/
def takeWhileCur (f : Char → Bool) (c : Cur) : List Char × Cur :=
  takeWhileL f c.prev c.rest

/-- Ordered choice: pyparsing MatchFirst.  A raised Python exception is
not caught, only a ParseException lets the next alternative run. -/
def pAlt (p q : P) : P := fun c =>
  match p c with
  | .fail => q c
  | r => r

/-- Sequence: pyparsing And; token lists concatenate. -/
def pSeq (p q : P) : P := fun c =>
  match p c with
  | .ok ts c2 =>
      match q c2 with
      | .ok us c3 => .ok (ts ++ us) c3
      | .fail => .fail
      | .err e => .err e
  | .fail => .fail
  | .err e => .err e

/-- Suppress: match but contribute no tokens. -/
def pSup (p : P) : P := fun c =>
  match p c with
  | .ok _ c2 => .ok [] c2
  | .fail => .fail
  | .err e => .err e

/-- ZeroOrMore with fuel; stops at the first recoverable failure, aborts
on a raised exception. -/
def pMany (p : P) : Nat → Cur → PRes (List Val)
  | 0, c => .ok [] c
  | n + 1, c =>
      match p c with
      | .fail => .ok [] c
      | .err e => .err e
      | .ok ts c2 =>
          match pMany p n c2 with
          | .ok us c3 => .ok (ts ++ us) c3
          | .fail => .fail
          | .err e => .err e

/-- Group: wrap the token list of the inner expression as one token. -/
def pGroup (p : P) : P := fun c =>
  match p c with
  | .ok ts c2 => .ok [.group ts] c2
  | .fail => .fail
  | .err e => .err e

/-- Group(Optional(p)): an absent inner match still yields one empty
group token. -/
def pGroupOpt (p : P) : P := fun c =>
  match p c with
  | .ok ts c2 => .ok [.group ts] c2
  | .fail => .ok [.group []] c
  | .err e => .err e

/-- Literal(s): skip whitespace, match the exact text, keep it as a raw
string token.  No word boundary is required, exactly as in pyparsing. -/
def litP (s : String) : P := fun c =>
  match takeStr s.toList (skipWs c) with
  | some c2 => .ok [.str s] c2
  | none => .fail

/-- one_of over single-character symbols (a regex character class); the
matched character is the token. -/
def oneOfChars (cs : List Char) : P := fun c =>
  match skipWs c with
  | ⟨_, x :: xs⟩ =>
      if cs.contains x then .ok [.str (String.mk [x])] ⟨some x, xs⟩
      else .fail
  | ⟨_, []⟩ => .fail

/-- delimitedList(p): one element, then zero or more comma-separated
elements; the commas are suppressed.  At least one element is required. -/
def delimListP (p : P) (fuel : Nat) : P :=
  pSeq p (fun c => pMany (pSeq (pSup (litP ",")) p) fuel c)

/-- Numeric value of a run of decimal digits. -/
def digitsToNat (ds : List Char) : Nat :=
  ds.foldl (fun a c => a * 10 + (c.toNat - 48)) 0

/-- pyparsing_common.signed_integer: the regex [+-]?\d+ with the match
converted by int(...); produces an Integer node. -/
def integerP : P := fun c =>
  let c1 := skipWs c
  match c1.rest with
  | [] => .fail
  | x :: xs =>
      if x = '+' || x = '-' then
        let r := takeWhileL Char.isDigit (some x) xs
        match r.1 with
        | [] => .fail
        | ds =>
            let n : Int := digitsToNat ds
            .ok [.Integer (if x = '-' then -n else n)] r.2
      else
        let r := takeWhileL Char.isDigit c1.prev (x :: xs)
        match r.1 with
        | [] => .fail
        | ds => .ok [.Integer (digitsToNat ds)] r.2

/-- Body of the regex of pyparsing_common.real after the optional sign:
(?:\d+\.\d*|\.\d+).  Returns the matched lexeme; there is no exponent
alternative in this regex. -/
def floatBody (c : Cur) : Option (List Char × Cur) :=
  match takeWhileCur Char.isDigit c with
  | ([], _) =>
      match c.rest with
      | '.' :: r2 =>
          match takeWhileL Char.isDigit (some '.') r2 with
          | ([], _) => none
          | (fs, c3) => some ('.' :: fs, c3)
      | _ => none
  | (ds, c1) =>
      match c1.rest with
      | '.' :: r2 =>
          some (ds ++ '.' :: (takeWhileL Char.isDigit (some '.') r2).1,
            (takeWhileL Char.isDigit (some '.') r2).2)
      | _ => none

/-- float_t after its leading whitespace skip: an optional sign, then
the regex body; the matched lexeme is kept in the node. -/
def floatAfterWs (c1 : Cur) : PRes (List Val) :=
  match c1.rest with
  | x :: xs =>
      if x = '+' || x = '-' then
        match floatBody ⟨some x, xs⟩ with
        | some (lex, c2) => .ok [.Float (String.mk (x :: lex))] c2
        | none => .fail
      else
        match floatBody c1 with
        | some (lex, c2) => .ok [.Float (String.mk lex)] c2
        | none => .fail
  | [] => .fail

/-- float_t = pyparsing_common.real with the Float parse action: the
regex [+-]?(?:\d+\.\d*|\.\d+). -/
def floatP : P := fun c => floatAfterWs (skipWs c)

/-- boolean = (Literal "true" | "True" | "false" | "False") with the
action Boolean(toks[0].lower()); the four spellings are tried in this
order and no word boundary is required. -/
def booleanP : P := fun c =>
  let c1 := skipWs c
  match takeStr "true".toList c1 with
  | some c2 => .ok [.Boolean true] c2
  | none =>
  match takeStr "True".toList c1 with
  | some c2 => .ok [.Boolean true] c2
  | none =>
  match takeStr "false".toList c1 with
  | some c2 => .ok [.Boolean false] c2
  | none =>
  match takeStr "False".toList c1 with
  | some c2 => .ok [.Boolean false] c2
  | none => .fail

/-- QuotedString(q) with the String parse action: the quote, a possibly
empty run of characters other than the quote and newlines, the closing
quote; the value excludes the delimiters, with no escape processing. -/
def quotedP (q : Char) : P := fun c =>
  let c1 := skipWs c
  match c1.rest with
  | x :: xs =>
      if x = q then
        let r := takeWhileL (fun ch => ch != q && ch != '\n' && ch != '\r')
          (some x) xs
        match r.2.rest with
        | y :: ys =>
            if y = q then .ok [.String (.str (String.mk r.1))] ⟨some y, ys⟩
            else .fail
        | [] => .fail
      else .fail
  | [] => .fail

/-- string1 = QuotedString with a single-quote delimiter. -/
def string1P : P := quotedP '\x27'

/-- string2 = QuotedString with a double-quote delimiter. -/
def string2P : P := quotedP '"'

/-- Identifier characters: leading letter or underscore (ASCII model of
pyparsing identchars). -/
def isIdentStart (c : Char) : Bool := c.isAlpha || c == '_'

/-- Identifier body characters: letters, digits, underscore. -/
def isIdentChar (c : Char) : Bool := c.isAlphanum || c == '_'

/-- ident = pyparsing_common.identifier = Word(identchars,
identbodychars), kept as a raw string token (it has no parse action). -/
def identP : P := fun c =>
  let c1 := skipWs c
  match c1.rest with
  | x :: xs =>
      if isIdentStart x then
        let r := takeWhileL isIdentChar (some x) xs
        .ok [.str (String.mk (x :: r.1))] r.2
      else .fail
  | [] => .fail

/-- Tail of varname: ZeroOrMore("." + ident) inside Combine, so the dot
and the following identifier must be adjacent, with no whitespace. -/
def dotSegs : Nat → Cur → List Char × Cur
  | 0, c => ([], c)
  | n + 1, c =>
      match c.rest with
      | '.' :: d :: ds =>
          if isIdentStart d then
            let r := takeWhileL isIdentChar (some d) ds
            let m := dotSegs n r.2
            ('.' :: d :: (r.1 ++ m.1), m.2)
          else ([], c)
      | _ => ([], c)

/-- varname = Combine(ident + ZeroOrMore("." + ident)) with the
Identifier parse action: a dotted name combined into one string. -/
def varnameP : P := fun c =>
  let c1 := skipWs c
  match c1.rest with
  | x :: xs =>
      if isIdentStart x then
        let r := takeWhileL isIdentChar (some x) xs
        let m := dotSegs r.2.rest.length r.2
        .ok [.Identifier (String.mk (x :: (r.1 ++ m.1)))] m.2
      else .fail
  | [] => .fail

/-- Word characters of the regex \b boundary (ASCII model of \w). -/
def isWordChar (c : Char) : Bool := c.isAlphanum || c == '_'

/-- Consume an exact character sequence comparing ASCII-caselessly. -/
def takeStrCaseless : List Char → Option Char → List Char → Option Cur
  | [], p, ys => some ⟨p, ys⟩
  | _ :: _, _, [] => none
  | x :: xs, _, y :: ys =>
      if x.toLower = y.toLower then takeStrCaseless xs (some y) ys else none

/-- Leading regex word boundary: satisfied at the start of the input or
after a non-word character (the keyword symbols all start with a word
character). -/
def atBoundary : Option Char → Bool
  | none => true
  | some c => !isWordChar c

/-- Match one keyword symbol caselessly with \b on both sides; the token
kept is the symbol as defined (pyparsing one_of maps the caseless match
back to the given spelling). -/
def kwSym (sym : String) (c : Cur) : Option Cur :=
  if atBoundary c.prev then
    match takeStrCaseless sym.toList c.prev c.rest with
    | some c2 =>
        match c2.rest with
        | [] => some c2
        | y :: _ => if isWordChar y then none else some c2
    | none => none
  else none

/-- Try keyword symbols in order at a fixed position. -/
def kwGo (c1 : Cur) : List String → PRes (List Val)
  | [] => .fail
  | s :: ss =>
      match kwSym s c1 with
      | some c2 => .ok [.str s] c2
      | none => kwGo c1 ss

/-- one_of(... caseless, as_keyword ...): the symbols tried in order
after whitespace skipping, as the generated alternation regex does. -/
def kwOp (syms : List String) : P := fun c =>
  kwGo (skipWs c) syms

/-- VALID_SELECT_ATTR_OPERATORS from the source. -/
def VALID_SELECT_ATTR_OPERATORS : List String :=
  ["==", "!=", ">", ">=", "<", "<=", "regex", "search", "match", "in",
   "not in", "contains", "not contains"]

/-- VALID_SELECT_OPERATORS from the source. -/
def VALID_SELECT_OPERATORS : List String :=
  ["==", "!=", ">", ">=", "<", "<=", "regex", "search", "match"]

/-- SUPPORTED_SEARCH_KINDS from the source. -/
def SUPPORTED_SEARCH_KINDS : List String := ["match", "regex", "search"]

mutual

/-- ParseResults.as_list on the members of a group: nested groups become
nested plain lists, every other member is unchanged. -/
def deepAsList : Val → Val
  | .group ts => .list (deepAsListL ts)
  | v => v

/-- deepAsList over a member list. -/
def deepAsListL : List Val → List Val
  | [] => []
  | v :: vs => deepAsList v :: deepAsListL vs

end

/-- The as_list helper of the source: ParseResults (groups) expose an
as_list method and are converted to plain lists; every other value (AST
nodes, raw strings, plain lists) is returned unchanged. -/
def as_list (v : Val) : Val :=
  match v with
  | .group ts => .list (deepAsListL ts)
  | v => v

/-- Python attribute access .value as used by the factory validators.
Raw strings and plain lists have no such attribute (AttributeError);
ParseResults returns the empty string for an undefined name; on the
modelled NamedTuples the field named value is returned when the spec
gives the node such a field (String, Identifier, Integer, Float and
Boolean hold their payload, KeywordValue, SelectType and SelectattrType
hold their value component), and access fails on nodes without one.  The
payload is returned as the Python value it is: a str for String keys and
Identifier, the lowercase spelling for Boolean, the node itself stands
for non-string payloads, which never compare equal to a whitelist
string. -/
def dotValue : Val → Except PErr Val
  | .str _ => .error .attrErr
  | .list _ => .error .attrErr
  | .pynone => .error .attrErr
  | .group _ => .ok (.str "")
  | .Integer n => .ok (.Integer n)
  | .Float l => .ok (.Float l)
  | .Boolean b => .ok (.str (if b then "true" else "false"))
  | .String v => .ok v
  | .Identifier s => .ok (.str s)
  | .KeywordValue _ v => .ok v
  | .SelectType _ v => .ok v
  | .SelectattrType _ _ v => .ok v
  | .SearchType _ _ _ => .error .attrErr
  | .OperatorExpression _ _ _ => .error .attrErr
  | .NegateExpression _ => .error .attrErr
  | .Condition _ => .error .attrErr

/-- Membership of a Python value in a list of strings: only a str can
compare equal to a str. -/
def pyValMem (v : Val) (ops : List String) : Bool :=
  match v with
  | .str s => ops.contains s
  | _ => false

/-- SelectattrTypeFactory from the source: tokens[1].value must be in
the whitelist, otherwise SelectattrOperatorException is raised carrying
tokens[1]; on success SelectattrType(tokens[0], tokens[1],
as_list(tokens[2])).  Out-of-range accesses are IndexError. -/
def SelectattrTypeFactory : List Val → Except PErr Val
  | t0 :: t1 :: rest =>
      match dotValue t1 with
      | .error e => .error e
      | .ok v =>
          if pyValMem v VALID_SELECT_ATTR_OPERATORS then
            match rest with
            | t2 :: _ => .ok (.SelectattrType t0 t1 (as_list t2))
            | [] => .error .indexErr
          else .error (.selectattrOp t1)
  | _ => .error .indexErr

/-- SelectTypeFactory from the source: tokens[0].value must be in the
select whitelist, otherwise SelectOperatorException carrying tokens[0];
on success SelectType(tokens[0], as_list(tokens[1])). -/
def SelectTypeFactory : List Val → Except PErr Val
  | t0 :: rest =>
      match dotValue t0 with
      | .error e => .error e
      | .ok v =>
          if pyValMem v VALID_SELECT_OPERATORS then
            match rest with
            | t1 :: _ => .ok (.SelectType t0 (as_list t1))
            | [] => .error .indexErr
          else .error (.selectOp t0)
  | [] => .error .indexErr

/-- The option-pairing loop of SearchTypeFactory: the tokens after the
first are consumed two at a time as KeywordValue(String(key), value); a
trailing unpaired token is an IndexError, exactly as tokens[i + 1] is in
the Python loop. -/
def pairOptions : List Val → Except PErr (List Val)
  | [] => .ok []
  | [_] => .error .indexErr
  | k :: v :: rest =>
      match pairOptions rest with
      | .ok opts => .ok (.KeywordValue (.String k) v :: opts)
      | .error e => .error e

/-- SearchTypeFactory from the source: SearchType(String(kind),
tokens[0], options) where options pairs up tokens[1:]; an empty token
list is an IndexError at tokens[0]. -/
def SearchTypeFactory (kind : String) : List Val → Except PErr Val
  | [] => .error .indexErr
  | t0 :: rest =>
      match pairOptions rest with
      | .ok opts => .ok (.SearchType (.String (.str kind)) t0 opts)
      | .error e => .error e

/-- Python equality of a token against a string literal: only raw string
tokens can be equal to it. -/
def tokIsStr (t : Val) (s : String) : Bool :=
  match t with
  | .str x => x == s
  | _ => false

/-- The second loop of OperatorExpressionFactory: with return_value set,
each further operator/operand pair wraps the previous result as the new
left child; a trailing unpaired token is an IndexError at tokens[1]. -/
def foldTail (acc : Val) : List Val → Except PErr Val
  | [] => .ok acc
  | [_] => .error .indexErr
  | op :: t :: rest => foldTail (.OperatorExpression acc op t) rest

/-- The elif chain of the first iteration of OperatorExpressionFactory,
entered with tokens[2:]; tokens[2] is inspected for the selectattr and
select forms, otherwise a plain OperatorExpression is built from the
first three tokens (as_list applied to both operands) and the loop
continues on tokens[3:].  tokens[3] is always the argument group when
tokens[2] is the selectattr or select keyword, since those recognizers
emit the keyword and its group adjacently; the defensive typeErr arm is
unreachable from the grammar. -/
def opExprElif (t0 t1 : Val) : List Val → Except PErr Val
  | [] => .error .indexErr
  | t2 :: rest3 =>
      if tokIsStr t2 "selectattr" then
        match rest3 with
        | [] => .error .indexErr
        | t3 :: rest4 =>
            match t3 with
            | .group g =>
                match SelectattrTypeFactory g with
                | .ok sa => foldTail (.OperatorExpression t0 t1 sa) rest4
                | .error e => .error e
            | _ => .error .typeErr
      else if tokIsStr t2 "select" then
        match rest3 with
        | [] => .error .indexErr
        | t3 :: rest4 =>
            match t3 with
            | .group g =>
                match SelectTypeFactory g with
                | .ok se => foldTail (.OperatorExpression t0 t1 se) rest4
                | .error e => .error e
            | _ => .error .typeErr
      else
        foldTail (.OperatorExpression (as_list t0) t1 (as_list t2)) rest3

/-- OperatorExpressionFactory from the source, on the flat token run of
one precedence tier.  The first iteration special-cases an is/is-not
operator whose right-hand raw term is a search-family call, and a
selectattr or select call on the right; every later iteration folds
left-associatively via foldTail.  An empty run returns Python None; a
one-token run hits IndexError at tokens[1]. -/
def OperatorExpressionFactory : List Val → Except PErr Val
  | [] => .ok .pynone
  | [_] => .error .indexErr
  | t0 :: t1 :: rest2 =>
      if tokIsStr t1 "is" || tokIsStr t1 "is not" then
        match rest2 with
        | [] => .error .indexErr
        | t2 :: rest3 =>
            match t2 with
            | .str k =>
                if SUPPORTED_SEARCH_KINDS.contains k then
                  match rest3 with
                  | [] => .error .indexErr
                  | t3 :: rest4 =>
                      match t3 with
                      | .group g =>
                          match SearchTypeFactory k g with
                          | .ok st =>
                              foldTail (.OperatorExpression t0 t1 st) rest4
                          | .error e => .error e
                      | _ => .error .typeErr
                else opExprElif t0 t1 (t2 :: rest3)
            | _ => opExprElif t0 t1 (t2 :: rest3)
      else opExprElif t0 t1 rest2

/-- allowed_values = float_t | integer | boolean | string1 | string2. -/
def allowedValuesP : P :=
  pAlt floatP (pAlt integerP (pAlt booleanP (pAlt string1P string2P)))

/-- key_value = ident + Suppress("=") + allowed_values: two tokens, the
raw key and the value node. -/
def keyValueP : P :=
  pSeq identP (pSeq (pSup (litP "=")) allowedValuesP)

/-- The kind alternative of string_search_t: one_of("regex match
search"), the three literals tried in the given order, no boundary. -/
def searchKindP : P :=
  pAlt (litP "regex") (pAlt (litP "match") (litP "search"))

/-- string_search_t = kind + Suppress("(") +
Group(Optional(delimitedList(string1 | string2 | key_value))) +
Suppress(")"). -/
def stringSearchP (fuel : Nat) : P :=
  pSeq searchKindP
    (pSeq (pSup (litP "("))
      (pSeq (pGroupOpt (delimListP (pAlt string1P (pAlt string2P keyValueP))
          fuel))
        (pSup (litP ")"))))

/-- list_values = Suppress("[") + Group(delimitedList(float_t | integer
| ident | string1 | string2)) + Suppress("]"): at least one element. -/
def listValuesP (fuel : Nat) : P :=
  pSeq (pSup (litP "["))
    (pSeq (pGroup (delimListP
        (pAlt floatP (pAlt integerP (pAlt identP (pAlt string1P string2P))))
        fuel))
      (pSup (litP "]")))

/-- The argument list shared by selectattr_t and select_t:
delimitedList(ident | allowed_values | list_values). -/
def selArgsP (fuel : Nat) : P :=
  delimListP (pAlt identP (pAlt allowedValuesP (listValuesP fuel))) fuel

/-- selectattr_t = Literal("selectattr") + Suppress("(") + Group(args) +
Suppress(")"): the keyword is kept as a raw token before the group. -/
def selectattrP (fuel : Nat) : P :=
  pSeq (litP "selectattr")
    (pSeq (pSup (litP "(")) (pSeq (pGroup (selArgsP fuel))
      (pSup (litP ")"))))

/-- select_t = Literal("select") + Suppress("(") + Group(args) +
Suppress(")"). -/
def selectP (fuel : Nat) : P :=
  pSeq (litP "select")
    (pSeq (pSup (litP "(")) (pSeq (pGroup (selArgsP fuel))
      (pSup (litP ")"))))

/-- all_terms, the alternatives in source order: selectattr_t | select_t
| string_search_t | list_values | float_t | integer | boolean | varname
| string1 | string2. -/
def allTermsP (fuel : Nat) : P :=
  pAlt (selectattrP fuel) (pAlt (selectP fuel) (pAlt (stringSearchP fuel)
    (pAlt (listValuesP fuel) (pAlt floatP (pAlt integerP
      (pAlt booleanP (pAlt varnameP (pAlt string1P string2P))))))))

/-- One left-associative binary tier of infix_notation: parse the
operand of the tighter level, then zero or more operator/operand pairs;
with at least one pair the flat run is folded by
OperatorExpressionFactory (the attached parse action), otherwise the
operand tokens pass through unchanged.  An IndexError raised inside a
parse action is special: pyparsing converts it into a recoverable
ParseException ("exception raised in parse action"), so the matchExpr
alternative of the tier fails and MatchFirst falls back to the tighter
level, which re-parses the first operand alone; every other exception
from the action propagates and aborts the parse. -/
def tierL (opP : P) (sub : P) (fuel : Nat) : P := fun c =>
  match sub c with
  | .fail => .fail
  | .err e => .err e
  | .ok t0 c0 =>
      match pMany (pSeq opP sub) fuel c0 with
      | .err e => .err e
      | .fail => .fail
      | .ok pairs c1 =>
          if pairs.isEmpty then .ok t0 c0
          else
            match OperatorExpressionFactory (t0 ++ pairs) with
            | .ok v => .ok [v] c1
            | .error .indexErr => .ok t0 c0
            | .error e => .err e

/-- The unary right-associative not tier: a leading Literal("not")
followed by this same level wraps the operand in NegateExpression,
otherwise the tighter level passes through.  NegateExpression is
modelled from the spec as wrapping the single operand; a multi-token
operand run would make the Python constructor call fail, modelled as
typeErr. -/
def notLevel (sub : P) : Nat → P
  | 0 => sub
  | n + 1 => fun c =>
      match litP "not" c with
      | .fail => sub c
      | .err e => .err e
      | .ok _ c2 =>
          match notLevel sub n c2 with
          | .ok ts c3 =>
              match ts with
              | [v] => .ok [.NegateExpression v] c3
              | _ => .err .typeErr
          | .fail => sub c
          | .err e => .err e

/-- The keyword symbols of the containment tier, in source order. -/
def containmentOps : List String :=
  ["not in", "in", "not contains", "contains"]

/-- The full expression grammar: the 12 tiers of the infix_notation
table applied to all_terms, tightest first, with a parenthesised full
expression as an extra base alternative.  The fuel bounds the recursion
through parentheses and the iteration inside each tier; any fuel past
the input length is enough. -/
def condExpr : Nat → P
  | 0 => fun _ => .fail
  | fuel + 1 => fun c =>
      let base := pAlt (allTermsP fuel)
        (pSeq (pSup (litP "(")) (pSeq (condExpr fuel) (pSup (litP ")"))))
      let e1 := tierL (oneOfChars ['*', '/']) base fuel
      let e2 := tierL (oneOfChars ['+', '-']) e1 fuel
      let e3 := tierL (litP ">=") e2 fuel
      let e4 := tierL (litP "<=") e3 fuel
      let e5 := tierL (oneOfChars ['<', '>']) e4 fuel
      let e6 := tierL (litP "!=") e5 fuel
      let e7 := tierL (litP "==") e6 fuel
      let e8 := tierL (pAlt (litP "is not") (litP "is")) e7 fuel
      let e9 := tierL (kwOp containmentOps) e8 fuel
      let e10 := notLevel e9 fuel
      let e11 := tierL (pAlt (litP "and") (litP "or")) e10 fuel
      let e12 := tierL (litP "<<") e11 fuel
      e12 c

/-- condition = the infix expression with the final parse action
Condition(toks[0]); an IndexError on an empty token list would be
wrapped by pyparsing into a recoverable ParseException (the arm is
unreachable, since the expression always yields a token). -/
def conditionParse (fuel : Nat) : P := fun c =>
  match condExpr fuel c with
  | .ok ts c2 =>
      match ts with
      | t :: _ => .ok [.Condition t] c2
      | [] => .fail
  | .fail => .fail
  | .err e => .err e

/-- Outcome of parse_condition: a Condition value, a re-raised
ParseException (SyntaxError in the claims), or a propagated Python
exception from a parse action. -/
inductive Outcome where
  | success (c : Val)
  | syntaxError
  | raised (e : PErr)

/-- Initial cursor for an input string. -/
def startCur (s : String) : Cur := ⟨none, s.toList⟩

/-- Fuel that is always sufficient: one more than the input length. -/
def parseFuel (s : String) : Nat := s.length + 1

/-- parse_condition from the source:
condition.parseString(condition_string, parse_all=True)[0].  A
ParseException is logged and re-raised (syntaxError); any other raised
exception propagates unchanged; with parse_all the parse fails unless
only whitespace remains after the expression. -/
def parse_condition (s : String) : Outcome :=
  match conditionParse (parseFuel s) (startCur s) with
  | .fail => .syntaxError
  | .err e => .raised e
  | .ok ts c2 =>
      if (skipWs c2).rest = [] then
        match ts with
        | t :: _ => .success t
        | [] => .syntaxError
      else .syntaxError

/-- A list of operator/operand pairs flattened into the tail shape of a
tier token run. -/
def flatPairs : List (Val × Val) → List Val
  | [] => []
  | p :: ps => p.1 :: p.2 :: flatPairs ps

/-- Helper: the second loop of OperatorExpressionFactory folds an
alternating operator/operand tail purely left-associatively. -/
theorem foldTail_foldl (ps : List (Val × Val)) :
    ∀ acc, foldTail acc (flatPairs ps) =
      .ok (ps.foldl (fun a p => .OperatorExpression a p.1 p.2) acc) := by
  induction ps with
  | nil => intro acc; rfl
  | cons p ps ih =>
      intro acc
      simpa [flatPairs, foldTail] using ih _

/-- Helper: the option loop of SearchTypeFactory turns an alternating
key/value tail into exactly one KeywordValue per pair, in order. -/
theorem pairOptions_pairs (ps : List (Val × Val)) :
    pairOptions (flatPairs ps) =
      .ok (ps.map fun p => .KeywordValue (.String p.1) p.2) := by
  induction ps with
  | nil => rfl
  | cons p ps ih => simp [flatPairs, pairOptions, ih]

/-- Helper: every lexeme accepted by the body of the real regex contains
a decimal point. -/
theorem floatBody_has_dot (c : Cur) (lex : List Char) (c2 : Cur)
    (h : floatBody c = some (lex, c2)) : ('.') ∈ lex := by
  unfold floatBody at h
  split at h
  · split at h
    · split at h
      · cases h
      · rw [Option.some_inj, Prod.mk.injEq] at h
        rw [← h.1]
        exact List.mem_cons_self _ _
    · cases h
  · split at h
    · rw [Option.some_inj, Prod.mk.injEq] at h
      rw [← h.1]
      exact List.mem_append_right _ (List.mem_cons_self _ _)
    · cases h

/-- Helper: every token produced by float_t is a Float node whose lexeme
contains a decimal point; the real regex has no exponent form. -/
theorem floatP_has_dot (c : Cur) (ts : List Val) (c2 : Cur)
    (h : floatP c = .ok ts c2) :
    ∃ lex : String, ts = [.Float lex] ∧ ('.') ∈ lex.toList := by
  unfold floatP floatAfterWs at h
  split at h
  · rename_i x xs hxs
    split at h
    · split at h
      · rename_i lx pc heq
        injection h with h1 h2
        exact ⟨String.mk (x :: lx), h1.symm,
          List.mem_cons_of_mem _ (floatBody_has_dot _ _ _ heq)⟩
      · cases h
    · split at h
      · rename_i lx pc heq
        injection h with h1 h2
        exact ⟨String.mk lx, h1.symm, floatBody_has_dot _ _ _ heq⟩
      · cases h
  · cases h

/-- Helper: list_values fails whenever the next characters are an empty
pair of brackets, for any following input: delimitedList demands at
least one element, and every element alternative rejects the closing
bracket. -/
theorem listValuesP_empty_fails (fuel : Nat) (p : Option Char)
    (rest : List Char) :
    listValuesP fuel ⟨p, '[' :: ']' :: rest⟩ = .fail := by
  simp +decide [listValuesP, pSeq, pSup, pGroup, litP, skipWs, skipWsL,
    takeStr, takeStrL, delimListP, pAlt, floatP, floatAfterWs, floatBody,
    integerP, identP, string1P, string2P, quotedP, takeWhileCur, takeWhileL,
    isWsChar, isIdentStart]

/-- C1: parsing "1 + 2 * 3 == 7" nests exactly as the precedence table
orders the tiers (* / before + - before ==), and the same ordering
places and/or below == in "a + b == c and d". -/
theorem claim1_precedence_tiers :
    parse_condition "1 + 2 * 3 == 7" =
      .success (.Condition (.OperatorExpression
        (.OperatorExpression (.Integer 1) (.str "+")
          (.OperatorExpression (.Integer 2) (.str "*") (.Integer 3)))
        (.str "==") (.Integer 7))) ∧
    parse_condition "a + b == c and d" =
      .success (.Condition (.OperatorExpression
        (.OperatorExpression
          (.OperatorExpression (.Identifier "a") (.str "+")
            (.Identifier "b"))
          (.str "==") (.Identifier "c"))
        (.str "and") (.Identifier "d"))) :=
  ⟨rfl, rfl⟩

/-- C2 counterexample: a selectattr call whose operator token is an
unquoted identifier (outside the whitelist) raises AttributeError, not
the dedicated unsupported-selectattr-operator error: the raw string
token has no value attribute. -/
theorem claim2_counterexample :
    parse_condition "b == selectattr(x, foo, 1)" = .raised .attrErr :=
  rfl

/-- C2 (amended): for every selectattr token run whose operator token
exposes a Python value attribute that is outside the whitelist, the
factory raises the dedicated unsupported-selectattr-operator error at
AST-construction time; parse_condition propagates it directly rather
than as a SyntaxError, as the quoted-operator parse shows, and a
whitelisted operator parses into a SelectattrType carrying it. -/
theorem claim2_selectattr_whitelist :
    (∀ t0 t1 rest pv, dotValue t1 = .ok pv →
      pyValMem pv VALID_SELECT_ATTR_OPERATORS = false →
      SelectattrTypeFactory (t0 :: t1 :: rest) =
        .error (.selectattrOp t1)) ∧
    parse_condition "a == selectattr(\"x\", \"=~\", 1)" =
      .raised (.selectattrOp (.String (.str "=~"))) ∧
    parse_condition "a == selectattr(\"x\", \"==\", 1)" =
      .success (.Condition (.OperatorExpression (.Identifier "a")
        (.str "==")
        (.SelectattrType (.String (.str "x")) (.String (.str "=="))
          (.Integer 1)))) := by
  refine ⟨?_, rfl, rfl⟩
  intro t0 t1 rest pv h1 h2
  simp [SelectattrTypeFactory, h1, h2]

/-- C2 witness: the general part applied to the spec example operator
token =~, whose hypotheses hold by computation. -/
theorem claim2_witness :
    dotValue (.String (.str "=~")) = .ok (.str "=~") ∧
    pyValMem (.str "=~") VALID_SELECT_ATTR_OPERATORS = false ∧
    SelectattrTypeFactory
      [.String (.str "x"), .String (.str "=~"), .Integer 1] =
      .error (.selectattrOp (.String (.str "=~"))) :=
  ⟨rfl, rfl, claim2_selectattr_whitelist.1 (.String (.str "x"))
    (.String (.str "=~")) [.Integer 1] (.str "=~") rfl rfl⟩

/-- C3: trailing unconsumed input is rejected ("a == 1 extra" raises a
SyntaxError), and every successful parse_condition consumed its whole
input up to trailing whitespace: no partial AST is ever returned. -/
theorem claim3_full_consumption :
    parse_condition "a == 1 extra" = .syntaxError ∧
    ∀ s c, parse_condition s = .success c →
      ∃ ts c2, conditionParse (parseFuel s) (startCur s) = .ok ts c2 ∧
        (skipWs c2).rest = [] := by
  refine ⟨rfl, ?_⟩
  intro s c h
  unfold parse_condition at h
  split at h
  · cases h
  · cases h
  · rename_i ts c2 heq
    split at h
    · rename_i hemp
      exact ⟨ts, c2, heq, hemp⟩
    · cases h

/-- C3 witness: a successful concrete parse, to which the general part
applies. -/
theorem claim3_witness :
    parse_condition "a == 1" =
      .success (.Condition (.OperatorExpression (.Identifier "a")
        (.str "==") (.Integer 1))) ∧
    ∃ ts c2,
      conditionParse (parseFuel "a == 1") (startCur "a == 1") =
        .ok ts c2 ∧ (skipWs c2).rest = [] :=
  ⟨rfl, claim3_full_consumption.2 "a == 1"
    (.Condition (.OperatorExpression (.Identifier "a") (.str "==")
      (.Integer 1))) rfl⟩

/-- C4: an is / is-not operator with a search-family right term builds
OperatorExpression(left, op, SearchType(kind, pattern, options)): the
bare-pattern call carries an empty options list, each key=value
argument becomes exactly one KeywordValue(String(key), value), and in
general the option loop maps an alternating key/value tail to exactly
one KeywordValue per pair, in order. -/
theorem claim4_search_forms :
    parse_condition "fact is match(\"^a.*\")" =
      .success (.Condition (.OperatorExpression (.Identifier "fact")
        (.str "is")
        (.SearchType (.String (.str "match")) (.String (.str "^a.*"))
          []))) ∧
    parse_condition "fact is not regex(\"a\", ignorecase=true)" =
      .success (.Condition (.OperatorExpression (.Identifier "fact")
        (.str "is not")
        (.SearchType (.String (.str "regex")) (.String (.str "a"))
          [.KeywordValue (.String (.str "ignorecase"))
            (.Boolean true)]))) ∧
    ∀ ps : List (Val × Val), pairOptions (flatPairs ps) =
      .ok (ps.map fun p => .KeywordValue (.String p.1) p.2) :=
  ⟨rfl, rfl, pairOptions_pairs⟩

/-- C5 counterexample: a search call with two bare string arguments does
not succeed with both as positional patterns; the option-pairing loop
hits an IndexError on the unpaired second argument, pyparsing wraps it
into a recoverable ParseException, the tier backtracks to the bare left
operand, and the unconsumed call text then fails parse_all, so
parse_condition raises a SyntaxError instead of returning a
SearchType. -/
theorem claim5_counterexample :
    parse_condition "a is match(\"x\", \"y\")" = .syntaxError :=
  rfl

/-- C5 (amended): only the first search-call argument is the positional
pattern; everything after it is consumed two at a time as key/value
option pairs regardless of being a bare string, as the general equation
for SearchTypeFactory states.  With exactly two bare strings the option
loop raises IndexError, which pyparsing converts to a recoverable
parse failure, ending in SyntaxError on the leftover call text; with
three arguments the parse succeeds, making the second bare string an
option key wrapped as String(String(...)) and the third its value. -/
theorem claim5_search_args_pairing :
    (∀ (k : String) (t0 : Val) (rest : List Val),
      SearchTypeFactory k (t0 :: rest) =
        Except.map (fun opts => Val.SearchType (.String (.str k)) t0 opts)
          (pairOptions rest)) ∧
    pairOptions [Val.String (.str "y")] = .error .indexErr ∧
    parse_condition "a is match(\"x\", \"y\")" = .syntaxError ∧
    parse_condition "a is match(\"x\", \"y\", \"z\")" =
      .success (.Condition (.OperatorExpression (.Identifier "a")
        (.str "is")
        (.SearchType (.String (.str "match")) (.String (.str "x"))
          [.KeywordValue (.String (.String (.str "y")))
            (.String (.str "z"))]))) := by
  refine ⟨?_, rfl, rfl, rfl⟩
  intro k t0 rest
  cases hpo : pairOptions rest with
  | ok opts => simp [SearchTypeFactory, hpo, Except.map]
  | error e => simp [SearchTypeFactory, hpo, Except.map]

/-- C6 counterexample: "1e5" is not recognized as a Float node; the
parse fails with a SyntaxError because the real regex has no exponent
alternative, so only "1" is consumed as an Integer and "e5" remains. -/
theorem claim6_counterexample :
    parse_condition "1e5" = .syntaxError :=
  rfl

/-- C6 (amended): the decimal point alone distinguishes Float from
Integer: every float_t match contains a decimal point in its lexeme (no
exponent form exists), "1.5" parses to a Float, "15" to an Integer, and
"1e5" raises a SyntaxError instead of producing a Float. -/
theorem claim6_float_needs_dot :
    parse_condition "1e5" = .syntaxError ∧
    parse_condition "1.5" = .success (.Condition (.Float "1.5")) ∧
    parse_condition "15" = .success (.Condition (.Integer 15)) ∧
    ∀ c ts c2, floatP c = .ok ts c2 →
      ∃ lex : String, ts = [.Float lex] ∧ ('.') ∈ lex.toList :=
  ⟨rfl, rfl, rfl, floatP_has_dot⟩

/-- C6 witness: the general part applied to the concrete input 1.5, on
which float_t succeeds. -/
theorem claim6_witness :
    floatP ⟨none, ['1', '.', '5']⟩ =
      .ok [.Float "1.5"] ⟨some '5', []⟩ ∧
    ∃ lex : String, [Val.Float "1.5"] = [.Float lex] ∧
      ('.') ∈ lex.toList :=
  ⟨rfl, claim6_float_needs_dot.2.2.2 ⟨none, ['1', '.', '5']⟩
    [.Float "1.5"] ⟨some '5', []⟩ rfl⟩

/-- C7: repeated same-tier operators fold purely left-associatively:
"a and b and c" nests to the left, and in general the continuation loop
of OperatorExpressionFactory wraps the previous result as the new left
child for every further operator/operand pair. -/
theorem claim7_left_assoc :
    parse_condition "a and b and c" =
      .success (.Condition (.OperatorExpression
        (.OperatorExpression (.Identifier "a") (.str "and")
          (.Identifier "b"))
        (.str "and") (.Identifier "c"))) ∧
    ∀ (ps : List (Val × Val)) (acc : Val),
      foldTail acc (flatPairs ps) =
        .ok (ps.foldl (fun a p => .OperatorExpression a p.1 p.2) acc) :=
  ⟨rfl, foldTail_foldl⟩

/-- C9: parsing is deterministic; two calls of parse_condition on the
same string produce the same outcome, so two successes carry
structurally (deep) equal Condition trees, equality of Val being deep
tree equality. -/
theorem claim9_deterministic :
    ∀ s r1 r2, parse_condition s = r1 → parse_condition s = r2 →
      r1 = r2 := by
  intro s r1 r2 h1 h2
  rw [← h1, ← h2]

/-- C9 witness: the determinism theorem applied at a concrete input. -/
theorem claim9_witness :
    Outcome.success (.Condition (.OperatorExpression (.Identifier "a")
      (.str "==") (.Integer 1))) =
    Outcome.success (.Condition (.OperatorExpression (.Identifier "a")
      (.str "==") (.Integer 1))) :=
  claim9_deterministic "a == 1" _ _ rfl rfl

/-- C10: an empty list literal is rejected: "a == []" raises a parse
error, and list_values fails on an empty bracket pair whatever input
follows, because delimitedList requires at least one element. -/
theorem claim10_empty_list_rejected :
    parse_condition "a == []" = .syntaxError ∧
    ∀ fuel p rest, listValuesP fuel ⟨p, '[' :: ']' :: rest⟩ = .fail :=
  ⟨rfl, listValuesP_empty_fails⟩

end AnsibleRulebook
